import Mathlib

/-!
Verification of the "Debug Redirect" trace synthesizer
(`processDebugInfo` in the DebugRedirect React component).

The component reads the page's query string into a flat string-to-string
map, optionally validates an `api_key` against an external endpoint,
builds a final redirect URL from `redirect_url` plus extra parameters,
assembles a trace payload object, and stores the resulting DebugInfo.

Shallow embedding conventions:
* A JS object with string values is an association list
  `List (String × String)` with unique keys; lookup is first match.
* JS string truthiness (`if (x)`, `x || y`) is modelled by `truthy` /
  `jsOr` on `Option String` (`none` = the key is absent, i.e. the JS
  value is `undefined`).
* The outcome of the single outbound `fetch` is an explicit input
  (`FetchOutcome`): a network error (the inner `try` catches a throw),
  or a response with an ok-flag and a parsed `ApiKeyData` body.
* `crypto.randomUUID()`, the two `new Date().toISOString()` calls,
  `navigator.userAgent`, `navigator.language`, and the message of the
  `TypeError` thrown by `new URL` on an invalid string are explicit
  inputs (`trace_id`, `created_at`, `timestamp`, `userAgent`,
  `language`, `urlErrMsg`).
* The browser WHATWG `URL` / `URLSearchParams` API is modelled by
  `ModelURL`, `parseURL`, `setParam`, `ModelURL.toString`; percent
  encoding and URL normalisation are abstracted away, the query is kept
  as an ordered list of key-value pairs. `URLSearchParams.set` updates
  the first entry with the key and removes the others.
-/

/-- A JS string-valued record, e.g. the object built from
`URLSearchParams` entries (unique keys, insertion order). -/
abbrev ParameterMap := List (String × String)

/-- JS object / map lookup: first entry with the key (keys are unique). -/
def getParam : ParameterMap → String → Option String
  | [], _ => none
  | p :: rest, k => if p.1 = k then some p.2 else getParam rest k

/-- JS truthiness of a possibly-absent string: `undefined` and `""` are
falsy, every other string is truthy. -/
def truthy : Option String → Bool
  | none => false
  | some s => if s = "" then false else true

/-- The JS idiom `x || d` for a possibly-absent string `x`. -/
def jsOr (x : Option String) (d : String) : String :=
  match x with
  | none => d
  | some s => if s = "" then d else s

/-- The keys of an association list. -/
def keysOf (o : List (String × String)) : List String := o.map Prod.fst

/-- The parsed body of a successful `GET /v1/auth/api-key` response. -/
structure ApiKeyData where
  id : String
  isActive : Bool
  token : String
deriving Repr, DecidableEq

/-- Outcome of the single outbound validation call: the `fetch` (or the
body parse) threw, or a response arrived with `response.ok` and, when
ok, a body parsed as `ApiKeyData`. -/
inductive FetchOutcome where
  | networkError : FetchOutcome
  | response (ok : Bool) (data : ApiKeyData) : FetchOutcome
deriving Repr, DecidableEq

/-- Lines 55-76: `apiKeyInfo` starts `null` and `apiKeyValid` starts
`false`; only when `api_key` is truthy is the fetch attempted, and only
an ok response sets `apiKeyInfo = data` and `apiKeyValid =
data.isActive`; a throw is swallowed by the inner `catch`. Returns
`(apiKeyInfo, apiKeyValid)`. -/
def resolveApiKey (api_key : Option String) (fetch : FetchOutcome) :
    Option ApiKeyData × Bool :=
  if truthy api_key then
    match fetch with
    | FetchOutcome.networkError => (none, false)
    | FetchOutcome.response ok data =>
        if ok then (some data, data.isActive) else (none, false)
  else (none, false)

/-- Model of a parsed WHATWG URL: everything before the `?`, plus the
ordered query pairs. -/
structure ModelURL where
  base : String
  query : List (String × String)
deriving Repr, DecidableEq

/-- Split a character list at its leading URL scheme: `some (scheme,
rest)` when the list is `scheme ++ "://" ++ rest` with the scheme all
alphabetic, `none` otherwise. -/
def schemeSplit : List Char → Option (List Char × List Char)
  | [] => none
  | c :: rest =>
      if c = ':' then
        match rest with
        | '/' :: '/' :: tail => some ([], tail)
        | _ => none
      else if c.isAlpha then
        match schemeSplit rest with
        | some (sch, tail) => some (c :: sch, tail)
        | none => none
      else none

/-- Split a character list at the first occurrence of `c`: the part
before it, and (when `c` occurs) the part after it. -/
def splitFirst (c : Char) : List Char → List Char × Option (List Char)
  | [] => ([], none)
  | ch :: rest =>
      if ch = c then ([], some rest)
      else
        let r := splitFirst c rest
        (ch :: r.1, r.2)

/-- Split a character list at every occurrence of `c`. -/
def splitAll (c : Char) : List Char → List (List Char)
  | [] => [[]]
  | ch :: rest =>
      if ch = c then [] :: splitAll c rest
      else
        match splitAll c rest with
        | [] => [[ch]]
        | g :: gs => (ch :: g) :: gs

/-- One `k=v` query chunk: key before the first `=`, value after it. -/
def parsePair (chunk : List Char) : String × String :=
  match splitFirst '=' chunk with
  | (k, none) => (String.mk k, "")
  | (k, some v) => (String.mk k, String.mk v)

/-- Query-string text `k1=v1&k2=v2&...` into ordered pairs. -/
def parseQueryString (qs : List Char) : List (String × String) :=
  if qs = [] then [] else (splitAll '&' qs).map parsePair

/-- Model of `new URL(s)`: `none` when the constructor throws. The
constructor accepts only an absolute URL — a non-empty alphabetic
scheme followed by `://` (model simplification of WHATWG validity);
the query starts at the first `?`. -/
def parseURL (s : String) : Option ModelURL :=
  match schemeSplit s.toList with
  | none => none
  | some ([], _) => none
  | some (_ :: _, _) =>
      match splitFirst '?' s.toList with
      | (base, none) => some ⟨String.mk base, []⟩
      | (base, some qs) => some ⟨String.mk base, parseQueryString qs⟩

/-- `URLSearchParams.set`: update the first entry carrying the key and
drop the other entries with that key; append when the key is absent. -/
def setParam : List (String × String) → String → String → List (String × String)
  | [], k, v => [(k, v)]
  | p :: rest, k, v =>
      if p.1 = k then (k, v) :: rest.filter (fun q => decide (q.1 ≠ k))
      else p :: setParam rest k v

/-- Serialize query pairs as `k1=v1&k2=v2&...`. -/
def joinQuery : List (String × String) → String
  | [] => ""
  | [p] => p.1 ++ "=" ++ p.2
  | p :: rest => p.1 ++ "=" ++ p.2 ++ "&" ++ joinQuery rest

/-- `url.toString()`: base, then `?` and the serialized query when the
query is non-empty. -/
def ModelURL.toString (u : ModelURL) : String :=
  match u.query with
  | [] => u.base
  | _ => u.base ++ "?" ++ joinQuery u.query

/-- Lines 84-88: `for ([key, value] of Object.entries(extraParams)) if
(value) url.searchParams.set(key, value)`. -/
def applyExtraParams (q : List (String × String)) : List (String × String) → List (String × String)
  | [] => q
  | p :: rest => applyExtraParams (if p.2 = "" then q else setParam q p.1 p.2) rest

/-- Lines 84-92: set the non-empty extras, then `trace_id`, then (when
`api_key` is truthy) `api_key`, on the parsed URL's query. -/
def setQueryParams (query extras : List (String × String))
    (trace_id : String) (api_key : Option String) : List (String × String) :=
  let q1 := applyExtraParams query extras
  let q2 := setParam q1 "trace_id" trace_id
  if truthy api_key then setParam q2 "api_key" (api_key.getD "") else q2

/-- JS object property assignment `o[k] = v` / spread-merge of one key:
the first entry with the key is updated in place, a fresh key is
appended (objects keep first-insertion order, last-assigned value). -/
def objSet : List (String × String) → String → String → List (String × String)
  | [], k, v => [(k, v)]
  | p :: rest, k, v =>
      if p.1 = k then (k, v) :: rest else p :: objSet rest k v

/-- JS object spread `{...o, ...kvs}`: assign each pair of `kvs` in
order onto `o`. -/
def objExtend (o : List (String × String)) : List (String × String) → List (String × String)
  | [] => o
  | p :: rest => objExtend (objSet o p.1 p.2) rest

/-- JS object property read `o[k]`. -/
def objGet : List (String × String) → String → Option String
  | [], _ => none
  | p :: rest, k => if p.1 = k then some p.2 else objGet rest k

/-- Lines 104-110: the hardcoded simulated geolocation / network block
merged last into the trace payload. -/
def geoBlock (userAgent language : String) : List (String × String) :=
  [("country", "BR"), ("city", "São Paulo"), ("colo", "GRU"),
   ("timezone", "America/Sao_Paulo"), ("asn", "1234"),
   ("user-agent", userAgent), ("accept-language", language)]

/-- Lines 96-111: the `trace_payload` object literal — the six fixed
fields, then the spread of the extra parameters, then the hardcoded
simulated-network block. -/
def buildTracePayload (trace_id created_at : String) (campaign_id : Option String)
    (apiKeyInfo : Option ApiKeyData) (redirect_url : Option String) (final_url : String)
    (extras : List (String × String)) (userAgent language : String) :
    List (String × String) :=
  objExtend
    (objExtend
      [("id", trace_id), ("created_at", created_at),
       ("campaign_id", jsOr campaign_id "missing"),
       ("api_key_id", jsOr (apiKeyInfo.map ApiKeyData.id) "unknown"),
       ("redirect_url", jsOr redirect_url "missing"),
       ("final_url", final_url)]
      extras)
    (geoBlock userAgent language)

/-- Lines 121-129: the ordered error determination. -/
def computeError (redirect_url api_key campaign_id : Option String)
    (apiKeyValid : Bool) : Option String :=
  if !truthy redirect_url then some "Missing required parameter: redirect_url"
  else if !truthy api_key then some "Missing required parameter: api_key"
  else if !truthy campaign_id then some "Missing required parameter: campaign_id"
  else if !apiKeyValid then some "API key is invalid or inactive"
  else none

/-- The top-level render state set by the synthesizer. `api_key_info =
none` models both the JS `null` and the absent field; `error = none`
and `api_key_valid = none` model the absent optional fields. -/
structure DebugInfo where
  trace_payload : List (String × String)
  final_url : String
  timestamp : String
  error : Option String
  api_key_valid : Option Bool
  api_key_info : Option ApiKeyData
deriving Repr, DecidableEq

/-- Lines 136-143: the degraded trace payload built in the `catch`
branch — every fixed field the empty string, no extras, no geo block. -/
def degradedPayload : List (String × String) :=
  [("id", ""), ("created_at", ""), ("campaign_id", ""),
   ("api_key_id", ""), ("redirect_url", ""), ("final_url", "")]

/-- Result of one synthesis pass. `debugInfo = none` models the early
return (no `setDebugInfo` call). `fetchCalled` records whether the
outbound validation request was issued, `generatedTraceId` whether
`crypto.randomUUID()` ran, and `finalQuery` is the state of
`url.searchParams` serialized into `final_url` (empty when no URL was
built). -/
structure SynthesisResult where
  debugInfo : Option DebugInfo
  fetchCalled : Bool
  generatedTraceId : Option String
  finalQuery : List (String × String)
deriving Repr, DecidableEq

/-- Lines 45-46: every key other than the three reserved ones is an
extra parameter (rest-destructuring keeps object order). -/
def extraParams (ps : ParameterMap) : List (String × String) :=
  ps.filter fun p =>
    !(p.1 == "campaign_id" || p.1 == "redirect_url" || p.1 == "api_key")

/-- Lines 44-151: the `processDebugInfo` routine. Explicit inputs stand
for the effects (fetch outcome, fresh UUID, the two timestamps, the
navigator strings, the message of a `new URL` throw); the outer
`try`/`catch` is the `match` on the URL-building result. -/
def processDebugInfo (ps : ParameterMap) (fetch : FetchOutcome)
    (trace_id created_at timestamp userAgent language urlErrMsg : String) :
    SynthesisResult :=
  let campaign_id := getParam ps "campaign_id"
  let redirect_url := getParam ps "redirect_url"
  let api_key := getParam ps "api_key"
  let extras := extraParams ps
  if !truthy campaign_id && !truthy redirect_url && !truthy api_key then
    { debugInfo := none, fetchCalled := false,
      generatedTraceId := none, finalQuery := [] }
  else
    let ak := resolveApiKey api_key fetch
    let ru := jsOr redirect_url ""
    let urlRes : Option (String × List (String × String)) :=
      if ru = "" then some ("", [])
      else
        match parseURL ru with
        | none => none
        | some url =>
            let q := setQueryParams url.query extras trace_id api_key
            some ((ModelURL.mk url.base q).toString, q)
    match urlRes with
    | none =>
        { debugInfo := some
            { trace_payload := degradedPayload
              final_url := ""
              timestamp := timestamp
              error := some urlErrMsg
              api_key_valid := none
              api_key_info := none }
          fetchCalled := truthy api_key
          generatedTraceId := some trace_id
          finalQuery := [] }
    | some (final_url, fq) =>
        { debugInfo := some
            { trace_payload :=
                buildTracePayload trace_id created_at campaign_id ak.1
                  redirect_url final_url extras userAgent language
              final_url := final_url
              timestamp := timestamp
              error := computeError redirect_url api_key campaign_id ak.2
              api_key_valid := some ak.2
              api_key_info := ak.1 }
          fetchCalled := truthy api_key
          generatedTraceId := some trace_id
          finalQuery := fq }

/-! ### Basic lemmas about JS truthiness and `x || d` -/

theorem truthy_some_of_ne (s : String) (h : s ≠ "") : truthy (some s) = true := by
  simp [truthy, h]

theorem jsOr_empty_of_not_truthy (x : Option String) (h : truthy x = false) :
    jsOr x "" = "" := by
  cases x with
  | none => rfl
  | some s =>
      by_cases hs : s = ""
      · simp [jsOr, hs]
      · simp [truthy, hs] at h

theorem jsOr_of_ne (s : String) (h : s ≠ "") (d : String) : jsOr (some s) d = s := by
  simp [jsOr, h]

theorem jsOr_of_not_truthy (x : Option String) (h : truthy x = false) (d : String) :
    jsOr x d = d := by
  cases x with
  | none => rfl
  | some s =>
      by_cases hs : s = ""
      · simp [jsOr, hs]
      · simp [truthy, hs] at h

/-! ### Lemmas about `URLSearchParams.set` -/

theorem mem_setParam_self (q : List (String × String)) (k v : String) :
    (k, v) ∈ setParam q k v := by
  induction q with
  | nil => simp [setParam]
  | cons p rest ih =>
      by_cases h : p.1 = k
      · simp [setParam, h]
      · simp [setParam, h, ih]

theorem mem_setParam_of_ne (q : List (String × String)) (k v k' v' : String)
    (h : (k', v') ∈ q) (hne : k' ≠ k) : (k', v') ∈ setParam q k v := by
  induction q with
  | nil => simp at h
  | cons p rest ih =>
      by_cases hp : p.1 = k
      · simp [setParam, hp]
        rcases List.mem_cons.mp h with h1 | h1
        · exact absurd (by rw [← h1] at hp; exact hp) hne
        · exact Or.inr ⟨h1, hne⟩
      · simp only [setParam, if_neg hp]
        rcases List.mem_cons.mp h with h1 | h1
        · exact h1 ▸ List.mem_cons_self _ _
        · exact List.mem_cons_of_mem _ (ih h1)

theorem not_mem_keys_setParam (q : List (String × String)) (k v k' : String)
    (h : k' ∉ keysOf q) (hne : k' ≠ k) : k' ∉ keysOf (setParam q k v) := by
  induction q with
  | nil => simpa [setParam, keysOf] using hne
  | cons p rest ih =>
      simp only [keysOf, List.map_cons, List.mem_cons] at h
      push_neg at h
      by_cases hp : p.1 = k
      · simp only [setParam, if_pos hp, keysOf, List.map_cons, List.mem_cons]
        push_neg
        refine ⟨hne, ?_⟩
        intro hmem
        rcases List.mem_map.mp hmem with ⟨x, hx, hx1⟩
        exact h.2 (List.mem_map.mpr ⟨x, List.mem_of_mem_filter hx, hx1⟩)
      · simp only [setParam, if_neg hp, keysOf, List.map_cons, List.mem_cons]
        push_neg
        exact ⟨h.1, ih h.2⟩

/-! ### Lemmas about the extras loop and the final query -/

theorem applyExtraParams_mem_preserved (extras q : List (String × String))
    (k v : String) (h : (k, v) ∈ q) (hk : k ∉ keysOf extras) :
    (k, v) ∈ applyExtraParams q extras := by
  induction extras generalizing q with
  | nil => simpa [applyExtraParams] using h
  | cons p rest ih =>
      simp only [keysOf, List.map_cons, List.mem_cons] at hk
      push_neg at hk
      simp only [applyExtraParams]
      apply ih
      · by_cases hv : p.2 = ""
        · simpa [hv] using h
        · simp only [if_neg hv]
          exact mem_setParam_of_ne _ _ _ _ _ h hk.1
      · exact hk.2

theorem applyExtraParams_mem (extras q : List (String × String)) (k v : String)
    (hnd : (keysOf extras).Nodup) (h : (k, v) ∈ extras) (hv : v ≠ "") :
    (k, v) ∈ applyExtraParams q extras := by
  induction extras generalizing q with
  | nil => simp at h
  | cons p rest ih =>
      simp only [keysOf, List.map_cons, List.nodup_cons] at hnd
      rcases List.mem_cons.mp h with h1 | h1
      · subst h1
        simp only [applyExtraParams, if_neg hv]
        exact applyExtraParams_mem_preserved rest _ k v (mem_setParam_self _ _ _) hnd.1
      · simp only [applyExtraParams]
        exact ih _ hnd.2 h1

theorem applyExtraParams_not_mem_keys (extras q : List (String × String)) (k : String)
    (hq : k ∉ keysOf q) (hext : ∀ v, (k, v) ∈ extras → v = "") :
    k ∉ keysOf (applyExtraParams q extras) := by
  induction extras generalizing q with
  | nil => simpa [applyExtraParams] using hq
  | cons p rest ih =>
      simp only [applyExtraParams]
      apply ih
      · by_cases hv : p.2 = ""
        · simpa [hv] using hq
        · simp only [if_neg hv]
          refine not_mem_keys_setParam _ _ _ _ hq ?_
          intro he
          subst he
          exact hv (hext p.2 (List.mem_cons_self _ _))
      · intro v hvmem
        exact hext v (List.mem_cons_of_mem _ hvmem)

theorem mem_setQueryParams_extra (query extras : List (String × String))
    (t : String) (api : Option String) (k v : String)
    (hnd : (keysOf extras).Nodup) (h : (k, v) ∈ extras) (hv : v ≠ "")
    (hk1 : k ≠ "trace_id") (hk2 : k ≠ "api_key") :
    (k, v) ∈ setQueryParams query extras t api := by
  unfold setQueryParams
  have h1 := applyExtraParams_mem extras query k v hnd h hv
  have h2 := mem_setParam_of_ne _ "trace_id" t k v h1 hk1
  by_cases ha : truthy api
  · simp only [ha, if_pos]
    exact mem_setParam_of_ne _ "api_key" _ k v h2 hk2
  · simp only [Bool.not_eq_true] at ha
    simp only [ha, Bool.false_eq_true, if_neg, ite_false]
    exact h2

theorem mem_setQueryParams_trace (query extras : List (String × String))
    (t : String) (api : Option String) :
    ("trace_id", t) ∈ setQueryParams query extras t api := by
  unfold setQueryParams
  have h2 := mem_setParam_self (applyExtraParams query extras) "trace_id" t
  by_cases ha : truthy api
  · simp only [ha, if_pos]
    exact mem_setParam_of_ne _ "api_key" _ _ _ h2 (by decide)
  · simp only [Bool.not_eq_true] at ha
    simp only [ha, Bool.false_eq_true, if_neg, ite_false]
    exact h2

theorem mem_setQueryParams_apiKey (query extras : List (String × String))
    (t : String) (api : Option String) (ha : truthy api = true) :
    ("api_key", api.getD "") ∈ setQueryParams query extras t api := by
  unfold setQueryParams
  simp only [ha, if_pos]
  exact mem_setParam_self _ _ _

theorem not_mem_setQueryParams (query extras : List (String × String))
    (t : String) (api : Option String) (k : String)
    (hq : k ∉ keysOf query) (hext : ∀ v, (k, v) ∈ extras → v = "")
    (hk1 : k ≠ "trace_id") (hk2 : k ≠ "api_key") :
    k ∉ keysOf (setQueryParams query extras t api) := by
  unfold setQueryParams
  have h1 := applyExtraParams_not_mem_keys extras query k hq hext
  have h2 := not_mem_keys_setParam _ "trace_id" t k h1 hk1
  by_cases ha : truthy api
  · simp only [ha, if_pos]
    exact not_mem_keys_setParam _ "api_key" _ k h2 hk2
  · simp only [Bool.not_eq_true] at ha
    simp only [ha, Bool.false_eq_true, if_neg, ite_false]
    exact h2

/-! ### Lemmas about JS object assignment and spread -/

theorem objGet_objSet (o : List (String × String)) (k v k' : String) :
    objGet (objSet o k v) k' = if k' = k then some v else objGet o k' := by
  induction o with
  | nil =>
      simp only [objSet, objGet]
      by_cases h : k' = k
      · simp [h]
      · rw [if_neg (fun he : k = k' => h he.symm), if_neg h]
  | cons p rest ih =>
      by_cases hp : p.1 = k
      · simp only [objSet, if_pos hp, objGet]
        by_cases hk : k' = k
        · rw [if_pos hk.symm, if_pos hk]
        · rw [if_neg (fun he : k = k' => hk he.symm), if_neg hk,
            if_neg (show ¬p.1 = k' from fun he => hk (hp ▸ he.symm ▸ rfl))]
      · simp only [objSet, if_neg hp, objGet]
        by_cases hpk : p.1 = k'
        · have hk : ¬k' = k := fun he => hp (hpk.trans he)
          rw [if_pos hpk, if_neg hk, if_pos hpk]
        · rw [if_neg hpk, ih, if_neg hpk]

theorem objGet_objExtend_congr (kvs o₁ o₂ : List (String × String)) (k : String)
    (h : objGet o₁ k = objGet o₂ k) :
    objGet (objExtend o₁ kvs) k = objGet (objExtend o₂ kvs) k := by
  induction kvs generalizing o₁ o₂ with
  | nil => simpa [objExtend] using h
  | cons p rest ih =>
      simp only [objExtend]
      apply ih
      rw [objGet_objSet, objGet_objSet]
      by_cases hk : k = p.1
      · simp [hk]
      · simp [hk, h]

theorem objGet_objExtend_not_mem (kvs o : List (String × String)) (k : String)
    (h : k ∉ keysOf kvs) : objGet (objExtend o kvs) k = objGet o k := by
  induction kvs generalizing o with
  | nil => simp [objExtend]
  | cons p rest ih =>
      simp only [keysOf, List.map_cons, List.mem_cons] at h
      push_neg at h
      simp only [objExtend]
      rw [ih _ h.2, objGet_objSet, if_neg h.1]

theorem objGet_objExtend_mem (kvs o : List (String × String)) (k : String)
    (hnd : (keysOf kvs).Nodup) (h : k ∈ keysOf kvs) :
    objGet (objExtend o kvs) k = objGet kvs k := by
  induction kvs generalizing o with
  | nil => simp [keysOf] at h
  | cons p rest ih =>
      simp only [keysOf, List.map_cons, List.nodup_cons] at hnd
      simp only [keysOf, List.map_cons, List.mem_cons] at h
      by_cases hk : k = p.1
      · simp only [objExtend, objGet, if_pos hk.symm]
        rw [objGet_objExtend_not_mem rest _ k (by rw [hk]; exact hnd.1)]
        rw [objGet_objSet, if_pos hk]
      · rcases h with h | h
        · exact absurd h hk
        · simp only [objExtend]
          rw [ih _ hnd.2 h]
          simp only [objGet, if_neg (fun he : p.1 = k => hk he.symm)]

/-! ### Branch-shape lemmas for `processDebugInfo` -/

/-- Early return (lines 48-50): all three reserved parameters falsy. -/
theorem processDebugInfo_idle (ps : ParameterMap) (fetch : FetchOutcome)
    (t c ts ua l em : String)
    (h1 : truthy (getParam ps "campaign_id") = false)
    (h2 : truthy (getParam ps "redirect_url") = false)
    (h3 : truthy (getParam ps "api_key") = false) :
    processDebugInfo ps fetch t c ts ua l em =
      { debugInfo := none, fetchCalled := false,
        generatedTraceId := none, finalQuery := [] } := by
  simp [processDebugInfo, h1, h2, h3]

/-- Some reserved parameter present but `redirect_url` falsy: the URL
branch is skipped and `final_url` stays the empty string. -/
theorem processDebugInfo_no_redirect (ps : ParameterMap) (fetch : FetchOutcome)
    (t c ts ua l em : String)
    (h2 : truthy (getParam ps "redirect_url") = false)
    (hpres : truthy (getParam ps "campaign_id") = true ∨
      truthy (getParam ps "api_key") = true) :
    processDebugInfo ps fetch t c ts ua l em =
      { debugInfo := some
          { trace_payload :=
              buildTracePayload t c (getParam ps "campaign_id")
                (resolveApiKey (getParam ps "api_key") fetch).1
                (getParam ps "redirect_url") "" (extraParams ps) ua l
            final_url := ""
            timestamp := ts
            error := computeError (getParam ps "redirect_url")
              (getParam ps "api_key") (getParam ps "campaign_id")
              (resolveApiKey (getParam ps "api_key") fetch).2
            api_key_valid := some (resolveApiKey (getParam ps "api_key") fetch).2
            api_key_info := (resolveApiKey (getParam ps "api_key") fetch).1 }
        fetchCalled := truthy (getParam ps "api_key")
        generatedTraceId := some t
        finalQuery := [] } := by
  have hru : jsOr (getParam ps "redirect_url") "" = "" :=
    jsOr_empty_of_not_truthy _ h2
  rcases hpres with h | h
  · simp [processDebugInfo, h2, h, hru]
  · simp [processDebugInfo, h2, h, hru]

/-- `redirect_url` present and parseable: the URL branch runs and the
final URL serializes the updated query. -/
theorem processDebugInfo_redirect_ok (ps : ParameterMap) (fetch : FetchOutcome)
    (t c ts ua l em ru : String) (u : ModelURL)
    (hru : getParam ps "redirect_url" = some ru) (hne : ru ≠ "")
    (hp : parseURL ru = some u) :
    processDebugInfo ps fetch t c ts ua l em =
      { debugInfo := some
          { trace_payload :=
              buildTracePayload t c (getParam ps "campaign_id")
                (resolveApiKey (getParam ps "api_key") fetch).1
                (getParam ps "redirect_url")
                (ModelURL.toString
                  ⟨u.base, setQueryParams u.query (extraParams ps) t
                    (getParam ps "api_key")⟩)
                (extraParams ps) ua l
            final_url := ModelURL.toString
              ⟨u.base, setQueryParams u.query (extraParams ps) t
                (getParam ps "api_key")⟩
            timestamp := ts
            error := computeError (getParam ps "redirect_url")
              (getParam ps "api_key") (getParam ps "campaign_id")
              (resolveApiKey (getParam ps "api_key") fetch).2
            api_key_valid := some (resolveApiKey (getParam ps "api_key") fetch).2
            api_key_info := (resolveApiKey (getParam ps "api_key") fetch).1 }
        fetchCalled := truthy (getParam ps "api_key")
        generatedTraceId := some t
        finalQuery := setQueryParams u.query (extraParams ps) t
          (getParam ps "api_key") } := by
  have htr : truthy (getParam ps "redirect_url") = true := by
    rw [hru]; exact truthy_some_of_ne ru hne
  have hjs : jsOr (getParam ps "redirect_url") "" = ru := by
    rw [hru]; exact jsOr_of_ne ru hne ""
  simp [processDebugInfo, htr, hjs, hne, hp]

/-- `redirect_url` present but unparseable: `new URL` throws and the
`catch` branch produces the degraded DebugInfo. -/
theorem processDebugInfo_degraded (ps : ParameterMap) (fetch : FetchOutcome)
    (t c ts ua l em ru : String)
    (hru : getParam ps "redirect_url" = some ru) (hne : ru ≠ "")
    (hp : parseURL ru = none) :
    processDebugInfo ps fetch t c ts ua l em =
      { debugInfo := some
          { trace_payload := degradedPayload
            final_url := ""
            timestamp := ts
            error := some em
            api_key_valid := none
            api_key_info := none }
        fetchCalled := truthy (getParam ps "api_key")
        generatedTraceId := some t
        finalQuery := [] } := by
  have htr : truthy (getParam ps "redirect_url") = true := by
    rw [hru]; exact truthy_some_of_ne ru hne
  have hjs : jsOr (getParam ps "redirect_url") "" = ru := by
    rw [hru]; exact jsOr_of_ne ru hne ""
  simp [processDebugInfo, htr, hjs, hne, hp]

/-! ### Helpers for destructuring truthiness and the extras map -/

theorem truthy_elim (x : Option String) (h : truthy x = true) :
    x = some (jsOr x "") ∧ jsOr x "" ≠ "" := by
  cases x with
  | none => simp [truthy] at h
  | some s =>
      by_cases hs : s = ""
      · simp [truthy, hs] at h
      · simp [jsOr, hs]

theorem truthy_false_of_absent_or_empty (x : Option String)
    (h : x = none ∨ x = some "") : truthy x = false := by
  rcases h with h | h <;> simp [h, truthy]

theorem extraParams_key_not_reserved (ps : ParameterMap) (k v : String)
    (h : (k, v) ∈ extraParams ps) :
    k ≠ "campaign_id" ∧ k ≠ "redirect_url" ∧ k ≠ "api_key" := by
  simp only [extraParams, List.mem_filter, Bool.not_eq_true', Bool.or_eq_false_iff,
    beq_eq_false_iff_ne] at h
  exact ⟨h.2.1.1, h.2.1.2, h.2.2⟩

theorem reserved_not_mem_extraParams (ps : ParameterMap) :
    "campaign_id" ∉ keysOf (extraParams ps) ∧
    "redirect_url" ∉ keysOf (extraParams ps) ∧
    "api_key" ∉ keysOf (extraParams ps) := by
  refine ⟨?_, ?_, ?_⟩ <;>
  · intro hmem
    rcases List.mem_map.mp hmem with ⟨p, hp, hk⟩
    have h3 := extraParams_key_not_reserved ps p.1 p.2 hp
    rw [hk] at h3
    simp at h3

theorem keysOf_extraParams_nodup (ps : ParameterMap) (h : (keysOf ps).Nodup) :
    (keysOf (extraParams ps)).Nodup :=
  h.sublist ((List.filter_sublist ps).map Prod.fst)

theorem assoc_value_unique (l : List (String × String))
    (hnd : (keysOf l).Nodup) (k v₁ v₂ : String)
    (h₁ : (k, v₁) ∈ l) (h₂ : (k, v₂) ∈ l) : v₁ = v₂ := by
  induction l with
  | nil => simp at h₁
  | cons p rest ih =>
      simp only [keysOf, List.map_cons, List.nodup_cons] at hnd
      rcases List.mem_cons.mp h₁ with h₁ | h₁ <;>
        rcases List.mem_cons.mp h₂ with h₂ | h₂
      · rw [← h₁] at h₂; exact (Prod.mk.injEq _ _ _ _ ▸ h₂.symm).2
      · exact absurd (List.mem_map.mpr ⟨(k, v₂), h₂, by rw [← h₁]⟩) hnd.1
      · exact absurd (List.mem_map.mpr ⟨(k, v₁), h₁, by rw [← h₂]⟩) hnd.1
      · exact ih hnd.2 h₁ h₂

/-- Network failure or non-2xx response on the validation call. -/
def fetchFailed : FetchOutcome → Bool
  | FetchOutcome.networkError => true
  | FetchOutcome.response ok _ => !ok

theorem resolveApiKey_failed (api_key : Option String) (fetch : FetchOutcome)
    (hf : fetchFailed fetch = true) :
    resolveApiKey api_key fetch = (none, false) := by
  cases fetch with
  | networkError => simp [resolveApiKey]
  | response ok data =>
      simp only [fetchFailed, Bool.not_eq_true'] at hf
      simp [resolveApiKey, hf]

/-- Every non-degraded synthesis pass (some reserved parameter present,
and `redirect_url`, when truthy, parseable) produces the same DebugInfo
record shape for some final URL `fu`. -/
theorem processDebugInfo_success_shape (ps : ParameterMap) (fetch : FetchOutcome)
    (t c ts ua l em : String) (info : DebugInfo)
    (hparse : truthy (getParam ps "redirect_url") = true →
      parseURL (jsOr (getParam ps "redirect_url") "") ≠ none)
    (hinfo : (processDebugInfo ps fetch t c ts ua l em).debugInfo = some info) :
    ∃ fu, info =
      { trace_payload := buildTracePayload t c (getParam ps "campaign_id")
          (resolveApiKey (getParam ps "api_key") fetch).1
          (getParam ps "redirect_url") fu (extraParams ps) ua l
        final_url := fu
        timestamp := ts
        error := computeError (getParam ps "redirect_url") (getParam ps "api_key")
          (getParam ps "campaign_id") (resolveApiKey (getParam ps "api_key") fetch).2
        api_key_valid := some (resolveApiKey (getParam ps "api_key") fetch).2
        api_key_info := (resolveApiKey (getParam ps "api_key") fetch).1 } := by
  by_cases hr : truthy (getParam ps "redirect_url") = true
  · obtain ⟨hsome, hne⟩ := truthy_elim _ hr
    obtain ⟨u, hu⟩ := Option.ne_none_iff_exists'.mp (hparse hr)
    rw [processDebugInfo_redirect_ok ps fetch t c ts ua l em _ u hsome hne hu] at hinfo
    exact ⟨_, (Option.some_injective _ hinfo).symm⟩
  · simp only [Bool.not_eq_true] at hr
    by_cases hc : truthy (getParam ps "campaign_id") = true
    · rw [processDebugInfo_no_redirect ps fetch t c ts ua l em hr (Or.inl hc)] at hinfo
      exact ⟨"", (Option.some_injective _ hinfo).symm⟩
    · by_cases ha : truthy (getParam ps "api_key") = true
      · rw [processDebugInfo_no_redirect ps fetch t c ts ua l em hr (Or.inr ha)] at hinfo
        exact ⟨"", (Option.some_injective _ hinfo).symm⟩
      · simp only [Bool.not_eq_true] at hc ha
        rw [processDebugInfo_idle ps fetch t c ts ua l em hc hr ha] at hinfo
        simp at hinfo

theorem keysOf_geoBlock (ua l : String) :
    keysOf (geoBlock ua l) =
      ["country", "city", "colo", "timezone", "asn", "user-agent",
       "accept-language"] := by
  simp [geoBlock, keysOf]

/-! ### Claim theorems -/

/-- C1: For every ParameterMap that produces a DebugInfo on the
non-degraded path, the error string is determined by evaluating the
conditions in strict order and stopping at the first true one: missing
`redirect_url`, else missing `api_key`, else missing `campaign_id`,
else invalid/inactive key; if none hold, no error is set. -/
theorem error_precedence_ordered (ps : ParameterMap) (fetch : FetchOutcome)
    (t c ts ua l em : String) (info : DebugInfo)
    (hparse : truthy (getParam ps "redirect_url") = true →
      parseURL (jsOr (getParam ps "redirect_url") "") ≠ none)
    (hinfo : (processDebugInfo ps fetch t c ts ua l em).debugInfo = some info) :
    (truthy (getParam ps "redirect_url") = false →
        info.error = some "Missing required parameter: redirect_url") ∧
    (truthy (getParam ps "redirect_url") = true →
      truthy (getParam ps "api_key") = false →
        info.error = some "Missing required parameter: api_key") ∧
    (truthy (getParam ps "redirect_url") = true →
      truthy (getParam ps "api_key") = true →
      truthy (getParam ps "campaign_id") = false →
        info.error = some "Missing required parameter: campaign_id") ∧
    (truthy (getParam ps "redirect_url") = true →
      truthy (getParam ps "api_key") = true →
      truthy (getParam ps "campaign_id") = true →
      (resolveApiKey (getParam ps "api_key") fetch).2 = false →
        info.error = some "API key is invalid or inactive") ∧
    (truthy (getParam ps "redirect_url") = true →
      truthy (getParam ps "api_key") = true →
      truthy (getParam ps "campaign_id") = true →
      (resolveApiKey (getParam ps "api_key") fetch).2 = true →
        info.error = none) := by
  obtain ⟨fu, hfu⟩ :=
    processDebugInfo_success_shape ps fetch t c ts ua l em info hparse hinfo
  subst hfu
  refine ⟨fun h1 => ?_, fun h1 h2 => ?_, fun h1 h2 h3 => ?_,
    fun h1 h2 h3 h4 => ?_, fun h1 h2 h3 h4 => ?_⟩
  · simp [computeError, h1]
  · simp [computeError, h1, h2]
  · simp [computeError, h1, h2, h3]
  · simp [computeError, h1, h2, h3, h4]
  · simp [computeError, h1, h2, h3, h4]

theorem error_precedence_ordered_witness :
    (processDebugInfo
        [("campaign_id", "c1"), ("redirect_url", "https://example.com/x"),
         ("api_key", "k1")]
        (FetchOutcome.response true ⟨"k1", false, "tok"⟩)
        "U" "C" "T" "UA" "L" "E").debugInfo.map DebugInfo.error =
      some (some "API key is invalid or inactive") := by
  rcases hh : (processDebugInfo
      [("campaign_id", "c1"), ("redirect_url", "https://example.com/x"),
       ("api_key", "k1")]
      (FetchOutcome.response true ⟨"k1", false, "tok"⟩)
      "U" "C" "T" "UA" "L" "E").debugInfo with _ | info
  · exact absurd hh (by decide)
  · have h := error_precedence_ordered _ _ "U" "C" "T" "UA" "L" "E" info
      (fun _ => by decide) hh
    rw [Option.map_some',
      h.2.2.2.1 (by decide) (by decide) (by decide) (by decide)]

/-- C3: In the assembled TracePayload the merge order is: fixed
required fields first, then the extra parameters, then the hardcoded
simulated-network block; consequently, for every extra parameter whose
key collides with one of the seven placeholder keys, the placeholder
value wins in the final object. -/
theorem geo_block_precedence (t c : String) (cid : Option String)
    (aki : Option ApiKeyData) (ru : Option String) (fu : String)
    (extras : List (String × String)) (ua l k v : String)
    (_hex : (k, v) ∈ extras) (hgeo : k ∈ keysOf (geoBlock ua l)) :
    objGet (buildTracePayload t c cid aki ru fu extras ua l) k =
      objGet (geoBlock ua l) k := by
  unfold buildTracePayload
  exact objGet_objExtend_mem _ _ _ (by rw [keysOf_geoBlock]; decide) hgeo

theorem geo_block_precedence_witness :
    objGet (buildTracePayload "t" "c" none none none "fu"
        [("country", "XX")] "UA" "L") "country" =
      objGet (geoBlock "UA" "L") "country" :=
  geo_block_precedence "t" "c" none none none "fu" _ "UA" "L" "country" "XX"
    (by decide) (by decide)

/-- C5: A throw during synthesis (an unparseable `redirect_url`) is
caught and converted into a degraded DebugInfo: every TracePayload
field is the empty string, the final URL is empty, and the error field
is the caught failure's message; `processDebugInfo` is total, so the
failure never propagates past the component boundary. -/
theorem degraded_on_url_throw (ps : ParameterMap) (fetch : FetchOutcome)
    (t c ts ua l em ru : String)
    (hru : getParam ps "redirect_url" = some ru) (hne : ru ≠ "")
    (hp : parseURL ru = none) :
    (processDebugInfo ps fetch t c ts ua l em).debugInfo = some
      { trace_payload := degradedPayload
        final_url := ""
        timestamp := ts
        error := some em
        api_key_valid := none
        api_key_info := none } ∧
    degradedPayload.all (fun p => p.2 == "") = true := by
  rw [processDebugInfo_degraded ps fetch t c ts ua l em ru hru hne hp]
  exact ⟨rfl, by decide⟩

theorem degraded_on_url_throw_witness :
    (processDebugInfo [("campaign_id", "c1"), ("redirect_url", "not a url")]
        FetchOutcome.networkError "U" "C" "T" "UA" "L" "SOME MESSAGE").debugInfo =
      some
        { trace_payload := degradedPayload
          final_url := ""
          timestamp := "T"
          error := some "SOME MESSAGE"
          api_key_valid := none
          api_key_info := none } ∧
    degradedPayload.all (fun p => p.2 == "") = true :=
  degraded_on_url_throw [("campaign_id", "c1"), ("redirect_url", "not a url")]
    FetchOutcome.networkError "U" "C" "T" "UA" "L" "SOME MESSAGE" "not a url"
    (by decide) (by decide) (by decide)

/-- C7: For every ParameterMap with none of the three reserved keys
present, the synthesizer performs no work: no DebugInfo is produced, no
outbound call is made, and no identifier is generated. -/
theorem idle_on_no_reserved (ps : ParameterMap) (fetch : FetchOutcome)
    (t c ts ua l em : String)
    (h1 : getParam ps "campaign_id" = none)
    (h2 : getParam ps "redirect_url" = none)
    (h3 : getParam ps "api_key" = none) :
    processDebugInfo ps fetch t c ts ua l em =
      { debugInfo := none, fetchCalled := false,
        generatedTraceId := none, finalQuery := [] } :=
  processDebugInfo_idle ps fetch t c ts ua l em
    (truthy_false_of_absent_or_empty _ (Or.inl h1))
    (truthy_false_of_absent_or_empty _ (Or.inl h2))
    (truthy_false_of_absent_or_empty _ (Or.inl h3))

theorem idle_on_no_reserved_witness :
    processDebugInfo [("utm_source", "newsletter")] FetchOutcome.networkError
        "U" "C" "T" "UA" "L" "E" =
      { debugInfo := none, fetchCalled := false,
        generatedTraceId := none, finalQuery := [] } :=
  idle_on_no_reserved [("utm_source", "newsletter")] FetchOutcome.networkError
    "U" "C" "T" "UA" "L" "E" (by decide) (by decide) (by decide)

/-- C8: `redirect_url` absent but at least one other reserved key
present: a DebugInfo is produced whose final URL is the empty string
and whose error is exactly "Missing required parameter: redirect_url". -/
theorem missing_redirect_result (ps : ParameterMap) (fetch : FetchOutcome)
    (t c ts ua l em : String)
    (hr : getParam ps "redirect_url" = none)
    (hpres : truthy (getParam ps "campaign_id") = true ∨
      truthy (getParam ps "api_key") = true) :
    (processDebugInfo ps fetch t c ts ua l em).debugInfo.map DebugInfo.final_url =
      some "" ∧
    (processDebugInfo ps fetch t c ts ua l em).debugInfo.map DebugInfo.error =
      some (some "Missing required parameter: redirect_url") := by
  have h2 : truthy (getParam ps "redirect_url") = false := by rw [hr]; rfl
  rw [processDebugInfo_no_redirect ps fetch t c ts ua l em h2 hpres]
  refine ⟨rfl, ?_⟩
  simp [computeError, h2]

theorem missing_redirect_result_witness :
    (processDebugInfo [("campaign_id", "c1")] FetchOutcome.networkError
        "U" "C" "T" "UA" "L" "E").debugInfo.map DebugInfo.final_url = some "" ∧
    (processDebugInfo [("campaign_id", "c1")] FetchOutcome.networkError
        "U" "C" "T" "UA" "L" "E").debugInfo.map DebugInfo.error =
      some (some "Missing required parameter: redirect_url") :=
  missing_redirect_result [("campaign_id", "c1")] FetchOutcome.networkError
    "U" "C" "T" "UA" "L" "E" (by decide) (Or.inl (by decide))

/-- C2 counterexample: the claim fails for an extra parameter literally
named `trace_id` — the later `url.searchParams.set("trace_id", <fresh
id>)` overwrites it, so with a valid absolute `redirect_url` the
non-empty extra pair `("trace_id", "x")` is not in the final query. -/
theorem final_query_superset_cex :
    parseURL "https://example.com/p" ≠ none ∧
    ("trace_id", "x") ∈
      extraParams [("redirect_url", "https://example.com/p"), ("trace_id", "x")] ∧
    ("x" : String) ≠ "UUID" ∧
    ("trace_id", "x") ∉ (processDebugInfo
      [("redirect_url", "https://example.com/p"), ("trace_id", "x")]
      FetchOutcome.networkError "UUID" "CA" "TS" "UA" "LANG" "EM").finalQuery := by
  decide

/-- C2 amended: for every ParameterMap with a valid absolute
`redirect_url`, the final URL's query contains every non-empty extra
parameter except one named `trace_id` (which the freshly generated
identifier overwrites), contains `trace_id` mapped to the fresh
identifier, contains `api_key` mapped to the input key when one was
supplied, and does not gain a key from an empty-valued extra. -/
theorem final_query_superset_amended (ps : ParameterMap) (fetch : FetchOutcome)
    (t c ts ua l em ru : String) (u : ModelURL)
    (hnd : (keysOf ps).Nodup)
    (hru : getParam ps "redirect_url" = some ru) (hne : ru ≠ "")
    (hp : parseURL ru = some u) :
    (∀ k v, (k, v) ∈ extraParams ps → v ≠ "" → k ≠ "trace_id" →
      (k, v) ∈ (processDebugInfo ps fetch t c ts ua l em).finalQuery) ∧
    ("trace_id", t) ∈ (processDebugInfo ps fetch t c ts ua l em).finalQuery ∧
    (∀ ak, getParam ps "api_key" = some ak → ak ≠ "" →
      ("api_key", ak) ∈ (processDebugInfo ps fetch t c ts ua l em).finalQuery) ∧
    (∀ k, (k, "") ∈ extraParams ps → k ∉ keysOf u.query → k ≠ "trace_id" →
      k ∉ keysOf (processDebugInfo ps fetch t c ts ua l em).finalQuery) := by
  rw [processDebugInfo_redirect_ok ps fetch t c ts ua l em ru u hru hne hp]
  have hndx := keysOf_extraParams_nodup ps hnd
  refine ⟨?_, ?_, ?_, ?_⟩
  · intro k v hkv hv hk
    exact mem_setQueryParams_extra _ _ _ _ _ _ hndx hkv hv hk
      (extraParams_key_not_reserved ps k v hkv).2.2
  · exact mem_setQueryParams_trace _ _ _ _
  · intro ak hak hne'
    have htr : truthy (getParam ps "api_key") = true := by
      rw [hak]; exact truthy_some_of_ne ak hne'
    have h := mem_setQueryParams_apiKey u.query (extraParams ps) t
      (getParam ps "api_key") htr
    rw [hak] at h ⊢
    simpa using h
  · intro k hk hq hkt
    refine not_mem_setQueryParams _ _ _ _ _ hq ?_ hkt
      (extraParams_key_not_reserved ps k "" hk).2.2
    intro v hv
    exact assoc_value_unique _ hndx k v "" hv hk

theorem final_query_superset_amended_witness :
    ("utm_source", "newsletter") ∈ (processDebugInfo
      [("campaign_id", "c1"), ("redirect_url", "https://example.com/x"),
       ("api_key", "k1"), ("utm_source", "newsletter"), ("em", "")]
      FetchOutcome.networkError "UUID" "CA" "TS" "UA" "L" "EM").finalQuery ∧
    ("trace_id", "UUID") ∈ (processDebugInfo
      [("campaign_id", "c1"), ("redirect_url", "https://example.com/x"),
       ("api_key", "k1"), ("utm_source", "newsletter"), ("em", "")]
      FetchOutcome.networkError "UUID" "CA" "TS" "UA" "L" "EM").finalQuery ∧
    ("api_key", "k1") ∈ (processDebugInfo
      [("campaign_id", "c1"), ("redirect_url", "https://example.com/x"),
       ("api_key", "k1"), ("utm_source", "newsletter"), ("em", "")]
      FetchOutcome.networkError "UUID" "CA" "TS" "UA" "L" "EM").finalQuery ∧
    "em" ∉ keysOf (processDebugInfo
      [("campaign_id", "c1"), ("redirect_url", "https://example.com/x"),
       ("api_key", "k1"), ("utm_source", "newsletter"), ("em", "")]
      FetchOutcome.networkError "UUID" "CA" "TS" "UA" "L" "EM").finalQuery := by
  have h := final_query_superset_amended
    [("campaign_id", "c1"), ("redirect_url", "https://example.com/x"),
     ("api_key", "k1"), ("utm_source", "newsletter"), ("em", "")]
    FetchOutcome.networkError "UUID" "CA" "TS" "UA" "L" "EM"
    "https://example.com/x" ⟨"https://example.com/x", []⟩
    (by decide) (by decide) (by decide) (by decide)
  exact ⟨h.1 "utm_source" "newsletter" (by decide) (by decide) (by decide),
    h.2.1, h.2.2.1 "k1" (by decide) (by decide),
    h.2.2.2 "em" (by decide) (by decide) (by decide)⟩

/-- C4: With `api_key` present and the external validation call failing
(network error or non-2xx response), the failure is swallowed: the pass
still produces a DebugInfo, `api_key_valid` is false, `api_key_info` is
absent, and when all three reserved parameters are present the error is
exactly "API key is invalid or inactive". -/
theorem fetch_failure_swallowed (ps : ParameterMap) (fetch : FetchOutcome)
    (t c ts ua l em ak : String) (info : DebugInfo)
    (hak : getParam ps "api_key" = some ak) (hne : ak ≠ "")
    (hf : fetchFailed fetch = true)
    (hparse : truthy (getParam ps "redirect_url") = true →
      parseURL (jsOr (getParam ps "redirect_url") "") ≠ none)
    (hinfo : (processDebugInfo ps fetch t c ts ua l em).debugInfo = some info) :
    info.api_key_valid = some false ∧
    info.api_key_info = none ∧
    (truthy (getParam ps "redirect_url") = true →
      truthy (getParam ps "campaign_id") = true →
        info.error = some "API key is invalid or inactive") := by
  obtain ⟨fu, hfu⟩ :=
    processDebugInfo_success_shape ps fetch t c ts ua l em info hparse hinfo
  subst hfu
  have hres : resolveApiKey (getParam ps "api_key") fetch = (none, false) :=
    resolveApiKey_failed _ _ hf
  have htr : truthy (getParam ps "api_key") = true := by
    rw [hak]; exact truthy_some_of_ne ak hne
  refine ⟨by simp [hres], by simp [hres], fun h1 h2 => ?_⟩
  simp [computeError, h1, h2, htr, hres]

theorem fetch_failure_swallowed_witness :
    (processDebugInfo
        [("campaign_id", "c1"), ("redirect_url", "https://example.com/x"),
         ("api_key", "k1")]
        (FetchOutcome.response false ⟨"", false, ""⟩)
        "U" "C" "T" "UA" "L" "E").debugInfo.map DebugInfo.api_key_valid =
      some (some false) ∧
    (processDebugInfo
        [("campaign_id", "c1"), ("redirect_url", "https://example.com/x"),
         ("api_key", "k1")]
        (FetchOutcome.response false ⟨"", false, ""⟩)
        "U" "C" "T" "UA" "L" "E").debugInfo.map DebugInfo.error =
      some (some "API key is invalid or inactive") := by
  rcases hh : (processDebugInfo
      [("campaign_id", "c1"), ("redirect_url", "https://example.com/x"),
       ("api_key", "k1")]
      (FetchOutcome.response false ⟨"", false, ""⟩)
      "U" "C" "T" "UA" "L" "E").debugInfo with _ | info
  · exact absurd hh (by decide)
  · have h := fetch_failure_swallowed _ _ "U" "C" "T" "UA" "L" "E" "k1" info
      (by decide) (by decide) (by decide) (fun _ => by decide) hh
    rw [Option.map_some', Option.map_some', h.1,
      h.2.2 (by decide) (by decide)]
    exact ⟨rfl, rfl⟩

theorem objGet_buildTracePayload_stable (t₁ c₁ t₂ c₂ : String)
    (cid : Option String) (aki : Option ApiKeyData) (ru : Option String)
    (fu₁ fu₂ : String) (extras : List (String × String)) (ua l k : String)
    (h1 : k ≠ "id") (h2 : k ≠ "created_at") (h3 : k ≠ "final_url") :
    objGet (buildTracePayload t₁ c₁ cid aki ru fu₁ extras ua l) k =
      objGet (buildTracePayload t₂ c₂ cid aki ru fu₂ extras ua l) k := by
  unfold buildTracePayload
  apply objGet_objExtend_congr
  apply objGet_objExtend_congr
  have h1' : ¬("id" = k) := fun he => h1 he.symm
  have h2' : ¬("created_at" = k) := fun he => h2 he.symm
  have h3' : ¬("final_url" = k) := fun he => h3 he.symm
  simp [objGet, h1', h2', h3']

/-- C6 counterexample: the claim fails because the fresh trace
identifier is embedded in the final URL's query, so two passes on the
same ParameterMap (same fetch outcome) differing only in the generated
values also differ in the `final_url` field, not only in `id`,
`created_at`, and `timestamp`. -/
theorem shape_stability_cex :
    (processDebugInfo [("redirect_url", "https://example.com/p")]
        FetchOutcome.networkError "U1" "C1" "T1" "UA" "L" "EM").debugInfo.map
      DebugInfo.final_url ≠
    (processDebugInfo [("redirect_url", "https://example.com/p")]
        FetchOutcome.networkError "U2" "C2" "T2" "UA" "L" "EM").debugInfo.map
      DebugInfo.final_url := by decide

/-- C6 amended: two synthesis passes on the same ParameterMap with the
same external-call outcome agree on the error, the validity flag, the
ApiKeyInfo, and every trace payload key other than `id`, `created_at`,
and `final_url`; `timestamp`, the payload's `id`, `created_at` and
`final_url`, and the DebugInfo's final URL carry the per-pass fresh
values (the final URL embeds the fresh trace identifier). -/
theorem shape_stability_amended (ps : ParameterMap) (fetch : FetchOutcome)
    (t₁ c₁ ts₁ t₂ c₂ ts₂ ua l em : String) (info₁ info₂ : DebugInfo)
    (hparse : truthy (getParam ps "redirect_url") = true →
      parseURL (jsOr (getParam ps "redirect_url") "") ≠ none)
    (h1 : (processDebugInfo ps fetch t₁ c₁ ts₁ ua l em).debugInfo = some info₁)
    (h2 : (processDebugInfo ps fetch t₂ c₂ ts₂ ua l em).debugInfo = some info₂) :
    info₁.error = info₂.error ∧
    info₁.api_key_valid = info₂.api_key_valid ∧
    info₁.api_key_info = info₂.api_key_info ∧
    ∀ k, k ≠ "id" → k ≠ "created_at" → k ≠ "final_url" →
      objGet info₁.trace_payload k = objGet info₂.trace_payload k := by
  obtain ⟨fu₁, hfu₁⟩ :=
    processDebugInfo_success_shape ps fetch t₁ c₁ ts₁ ua l em info₁ hparse h1
  obtain ⟨fu₂, hfu₂⟩ :=
    processDebugInfo_success_shape ps fetch t₂ c₂ ts₂ ua l em info₂ hparse h2
  subst hfu₁
  subst hfu₂
  refine ⟨rfl, rfl, rfl, fun k hk1 hk2 hk3 => ?_⟩
  exact objGet_buildTracePayload_stable t₁ c₁ t₂ c₂ _ _ _ fu₁ fu₂ _ ua l k
    hk1 hk2 hk3

theorem shape_stability_amended_witness :
    (processDebugInfo [("campaign_id", "c"), ("redirect_url", "https://example.com/x")]
        FetchOutcome.networkError "U1" "C1" "T1" "UA" "L" "EM").debugInfo.map
      (fun i => objGet i.trace_payload "campaign_id") =
    (processDebugInfo [("campaign_id", "c"), ("redirect_url", "https://example.com/x")]
        FetchOutcome.networkError "U2" "C2" "T2" "UA" "L" "EM").debugInfo.map
      (fun i => objGet i.trace_payload "campaign_id") := by
  rcases hh1 : (processDebugInfo
      [("campaign_id", "c"), ("redirect_url", "https://example.com/x")]
      FetchOutcome.networkError "U1" "C1" "T1" "UA" "L" "EM").debugInfo
    with _ | info₁
  · exact absurd hh1 (by decide)
  rcases hh2 : (processDebugInfo
      [("campaign_id", "c"), ("redirect_url", "https://example.com/x")]
      FetchOutcome.networkError "U2" "C2" "T2" "UA" "L" "EM").debugInfo
    with _ | info₂
  · exact absurd hh2 (by decide)
  have h := shape_stability_amended _ _ "U1" "C1" "T1" "U2" "C2" "T2" "UA" "L" "EM"
    info₁ info₂ (fun _ => by decide) hh1 hh2
  rw [Option.map_some', Option.map_some',
    h.2.2.2 "campaign_id" (by decide) (by decide) (by decide)]

/-- C9 counterexample: the claim fails because an extra parameter named
`id` is spread into the payload after the fixed fields and overrides
the freshly generated trace identifier. -/
theorem payload_id_cex :
    (processDebugInfo [("campaign_id", "c"), ("id", "x")] FetchOutcome.networkError
        "UUID" "CA" "TS" "UA" "LANG" "EM").debugInfo.map
      (fun i => objGet i.trace_payload "id") = some (some "x") ∧
    ("x" : String) ≠ "UUID" := by decide

/-- C9 amended: on every non-degraded synthesis pass whose extra
parameters do not contain a key named `id`, the TracePayload's `id`
field equals the freshly generated trace identifier of that pass; an
extra parameter sharing the name of a fixed field (`id`, `created_at`,
`api_key_id`, `final_url`) overrides that field, because the extras are
merged after the fixed fields. (All payload values in the model are
strings, mirroring the string/number/boolean/null flat-value rule.) -/
theorem payload_id_fresh_amended (ps : ParameterMap) (fetch : FetchOutcome)
    (t c ts ua l em : String) (info : DebugInfo)
    (hparse : truthy (getParam ps "redirect_url") = true →
      parseURL (jsOr (getParam ps "redirect_url") "") ≠ none)
    (hinfo : (processDebugInfo ps fetch t c ts ua l em).debugInfo = some info)
    (hid : "id" ∉ keysOf (extraParams ps)) :
    objGet info.trace_payload "id" = some t := by
  obtain ⟨fu, hfu⟩ :=
    processDebugInfo_success_shape ps fetch t c ts ua l em info hparse hinfo
  subst hfu
  show objGet (buildTracePayload t c (getParam ps "campaign_id")
    (resolveApiKey (getParam ps "api_key") fetch).1
    (getParam ps "redirect_url") fu (extraParams ps) ua l) "id" = some t
  unfold buildTracePayload
  rw [objGet_objExtend_not_mem _ _ _ (by rw [keysOf_geoBlock]; decide),
    objGet_objExtend_not_mem _ _ _ hid]
  simp [objGet]

theorem payload_id_fresh_amended_witness :
    (processDebugInfo [("campaign_id", "c"), ("redirect_url", "https://example.com/x")]
        FetchOutcome.networkError "UUID" "CA" "TS" "UA" "L" "EM").debugInfo.map
      (fun i => objGet i.trace_payload "id") = some (some "UUID") := by
  rcases hh : (processDebugInfo
      [("campaign_id", "c"), ("redirect_url", "https://example.com/x")]
      FetchOutcome.networkError "UUID" "CA" "TS" "UA" "L" "EM").debugInfo
    with _ | info
  · exact absurd hh (by decide)
  · rw [Option.map_some', payload_id_fresh_amended _ _ "UUID" "CA" "TS" "UA" "L" "EM"
      info (fun _ => by decide) hh (by decide)]

/-- C10: A reserved parameter present with an empty-string value is
treated as absent everywhere, per parameter: (a) it counts toward the
idle check, so a ParameterMap whose reserved keys are all absent or
empty-valued produces no DebugInfo; (b) an empty `redirect_url`,
`api_key`, or `campaign_id` each triggers its own
"Missing required parameter" error message (in the ordered chain, so
the later messages are observed once the earlier parameters are
genuinely present); (c) an empty `campaign_id` and an empty
`redirect_url` are each replaced by the sentinel default `"missing"`
in the TracePayload. -/
theorem empty_reserved_as_absent :
    (∀ (ps : ParameterMap) (fetch : FetchOutcome) (t c ts ua l em : String),
      (getParam ps "campaign_id" = none ∨ getParam ps "campaign_id" = some "") →
      (getParam ps "redirect_url" = none ∨ getParam ps "redirect_url" = some "") →
      (getParam ps "api_key" = none ∨ getParam ps "api_key" = some "") →
      processDebugInfo ps fetch t c ts ua l em =
        { debugInfo := none, fetchCalled := false,
          generatedTraceId := none, finalQuery := [] }) ∧
    (∀ (ps : ParameterMap) (fetch : FetchOutcome) (t c ts ua l em : String),
      getParam ps "redirect_url" = some "" →
      (truthy (getParam ps "campaign_id") = true ∨
        truthy (getParam ps "api_key") = true) →
      (processDebugInfo ps fetch t c ts ua l em).debugInfo.map DebugInfo.error =
        some (some "Missing required parameter: redirect_url")) ∧
    (∀ (ps : ParameterMap) (fetch : FetchOutcome) (t c ts ua l em ru : String)
        (u : ModelURL),
      getParam ps "api_key" = some "" →
      getParam ps "redirect_url" = some ru → ru ≠ "" → parseURL ru = some u →
      (processDebugInfo ps fetch t c ts ua l em).debugInfo.map DebugInfo.error =
        some (some "Missing required parameter: api_key")) ∧
    (∀ (ps : ParameterMap) (fetch : FetchOutcome) (t c ts ua l em ru ak : String)
        (u : ModelURL),
      getParam ps "campaign_id" = some "" →
      getParam ps "redirect_url" = some ru → ru ≠ "" → parseURL ru = some u →
      getParam ps "api_key" = some ak → ak ≠ "" →
      (processDebugInfo ps fetch t c ts ua l em).debugInfo.map DebugInfo.error =
        some (some "Missing required parameter: campaign_id")) ∧
    (∀ (ps : ParameterMap) (fetch : FetchOutcome) (t c ts ua l em : String)
        (info : DebugInfo),
      getParam ps "campaign_id" = some "" →
      (truthy (getParam ps "redirect_url") = true →
        parseURL (jsOr (getParam ps "redirect_url") "") ≠ none) →
      (processDebugInfo ps fetch t c ts ua l em).debugInfo = some info →
      objGet info.trace_payload "campaign_id" = some "missing") ∧
    (∀ (ps : ParameterMap) (fetch : FetchOutcome) (t c ts ua l em : String)
        (info : DebugInfo),
      getParam ps "redirect_url" = some "" →
      (processDebugInfo ps fetch t c ts ua l em).debugInfo = some info →
      objGet info.trace_payload "redirect_url" = some "missing") := by
  refine ⟨?_, ?_, ?_, ?_, ?_, ?_⟩
  · intro ps fetch t c ts ua l em hc hr ha
    exact processDebugInfo_idle ps fetch t c ts ua l em
      (truthy_false_of_absent_or_empty _ hc)
      (truthy_false_of_absent_or_empty _ hr)
      (truthy_false_of_absent_or_empty _ ha)
  · intro ps fetch t c ts ua l em hr hpres
    have h2 : truthy (getParam ps "redirect_url") = false :=
      truthy_false_of_absent_or_empty _ (Or.inr hr)
    rw [processDebugInfo_no_redirect ps fetch t c ts ua l em h2 hpres]
    simp [computeError, h2]
  · intro ps fetch t c ts ua l em ru u ha hru hne hp
    have htr : truthy (getParam ps "redirect_url") = true := by
      rw [hru]; exact truthy_some_of_ne ru hne
    have haf : truthy (getParam ps "api_key") = false :=
      truthy_false_of_absent_or_empty _ (Or.inr ha)
    rw [processDebugInfo_redirect_ok ps fetch t c ts ua l em ru u hru hne hp]
    simp [computeError, htr, haf]
  · intro ps fetch t c ts ua l em ru ak u hc hru hne hp hak hakne
    have htr : truthy (getParam ps "redirect_url") = true := by
      rw [hru]; exact truthy_some_of_ne ru hne
    have hat : truthy (getParam ps "api_key") = true := by
      rw [hak]; exact truthy_some_of_ne ak hakne
    have hcf : truthy (getParam ps "campaign_id") = false :=
      truthy_false_of_absent_or_empty _ (Or.inr hc)
    rw [processDebugInfo_redirect_ok ps fetch t c ts ua l em ru u hru hne hp]
    simp [computeError, htr, hat, hcf]
  · intro ps fetch t c ts ua l em info hc hparse hinfo
    obtain ⟨fu, hfu⟩ :=
      processDebugInfo_success_shape ps fetch t c ts ua l em info hparse hinfo
    subst hfu
    show objGet (buildTracePayload t c (getParam ps "campaign_id")
      (resolveApiKey (getParam ps "api_key") fetch).1
      (getParam ps "redirect_url") fu (extraParams ps) ua l) "campaign_id" =
        some "missing"
    unfold buildTracePayload
    rw [objGet_objExtend_not_mem _ _ _ (by rw [keysOf_geoBlock]; decide),
      objGet_objExtend_not_mem _ _ _ (reserved_not_mem_extraParams ps).1, hc]
    simp [objGet, jsOr]
  · intro ps fetch t c ts ua l em info hr hinfo
    have hrf : truthy (getParam ps "redirect_url") = false :=
      truthy_false_of_absent_or_empty _ (Or.inr hr)
    obtain ⟨fu, hfu⟩ :=
      processDebugInfo_success_shape ps fetch t c ts ua l em info
        (fun h => by simp [hrf] at h) hinfo
    subst hfu
    show objGet (buildTracePayload t c (getParam ps "campaign_id")
      (resolveApiKey (getParam ps "api_key") fetch).1
      (getParam ps "redirect_url") fu (extraParams ps) ua l) "redirect_url" =
        some "missing"
    unfold buildTracePayload
    rw [objGet_objExtend_not_mem _ _ _ (by rw [keysOf_geoBlock]; decide),
      objGet_objExtend_not_mem _ _ _ (reserved_not_mem_extraParams ps).2.1, hr]
    simp [objGet, jsOr]

theorem empty_reserved_as_absent_witness :
    processDebugInfo [("campaign_id", ""), ("redirect_url", "")]
      FetchOutcome.networkError "U" "C" "T" "UA" "L" "E" =
      { debugInfo := none, fetchCalled := false,
        generatedTraceId := none, finalQuery := [] } ∧
    (processDebugInfo [("campaign_id", "c"), ("redirect_url", "")]
        FetchOutcome.networkError "U" "C" "T" "UA" "L" "E").debugInfo.map
      DebugInfo.error = some (some "Missing required parameter: redirect_url") ∧
    (processDebugInfo
        [("campaign_id", "c"), ("redirect_url", "https://example.com/x"),
         ("api_key", "")]
        FetchOutcome.networkError "U" "C" "T" "UA" "L" "E").debugInfo.map
      DebugInfo.error = some (some "Missing required parameter: api_key") ∧
    (processDebugInfo
        [("campaign_id", ""), ("redirect_url", "https://example.com/x"),
         ("api_key", "k")]
        FetchOutcome.networkError "U" "C" "T" "UA" "L" "E").debugInfo.map
      DebugInfo.error = some (some "Missing required parameter: campaign_id") ∧
    (processDebugInfo
        [("campaign_id", ""), ("redirect_url", "https://example.com/x"),
         ("api_key", "k")]
        FetchOutcome.networkError "U" "C" "T" "UA" "L" "E").debugInfo.map
      (fun i => objGet i.trace_payload "campaign_id") = some (some "missing") ∧
    (processDebugInfo [("campaign_id", "c"), ("redirect_url", "")]
        FetchOutcome.networkError "U" "C" "T" "UA" "L" "E").debugInfo.map
      (fun i => objGet i.trace_payload "redirect_url") = some (some "missing") := by
  obtain ⟨ha, hb, hk, hg, hs, hq⟩ := empty_reserved_as_absent
  refine ⟨ha _ FetchOutcome.networkError "U" "C" "T" "UA" "L" "E"
      (Or.inr (by decide)) (Or.inr (by decide)) (Or.inl (by decide)),
    hb _ FetchOutcome.networkError "U" "C" "T" "UA" "L" "E"
      (by decide) (Or.inl (by decide)),
    hk _ FetchOutcome.networkError "U" "C" "T" "UA" "L" "E"
      "https://example.com/x" ⟨"https://example.com/x", []⟩
      (by decide) (by decide) (by decide) (by decide),
    hg _ FetchOutcome.networkError "U" "C" "T" "UA" "L" "E"
      "https://example.com/x" "k" ⟨"https://example.com/x", []⟩
      (by decide) (by decide) (by decide) (by decide) (by decide) (by decide),
    ?_, ?_⟩
  · rcases hh : (processDebugInfo
        [("campaign_id", ""), ("redirect_url", "https://example.com/x"),
         ("api_key", "k")]
        FetchOutcome.networkError "U" "C" "T" "UA" "L" "E").debugInfo
      with _ | info
    · exact absurd hh (by decide)
    · rw [Option.map_some',
        hs _ FetchOutcome.networkError "U" "C" "T" "UA" "L" "E" info
          (by decide) (fun _ => by decide) hh]
  · rcases hh : (processDebugInfo [("campaign_id", "c"), ("redirect_url", "")]
        FetchOutcome.networkError "U" "C" "T" "UA" "L" "E").debugInfo
      with _ | info
    · exact absurd hh (by decide)
    · rw [Option.map_some',
        hq _ FetchOutcome.networkError "U" "C" "T" "UA" "L" "E" info
          (by decide) hh]
